import Mathlib

/-
Shallow embedding of the geoguesser pipeline (src/main.py, src/youtube_utils.py,
src/geoguesser.py, src/geolocation.py).

External effects (yt-dlp, the Gemini upload/analysis service, cv2 decoding, the
OpenAI calls, the filesystem) are modelled by explicit oracle fields in
environment records; the Python control flow (try/except/finally, early
returns, per-item skip) is translated branch by branch, and the file-system /
remote-handle side effects are tracked as explicit output fields.
-/

/-- Minimal JSON value AST: the shape of what Python json.loads can produce.
Integers and floats are separate constructors because the source checks
isinstance(t, int); object keys are assumed distinct, as in a Python dict. -/
inductive JVal where
  | null
  | jbool (b : Bool)
  | jint (n : Int)
  | jnum (q : ℚ)
  | jstr (s : String)
  | jarr (xs : List JVal)
  | jobj (kvs : List (String × JVal))

/-- Python truthiness of a JSON value, as used by the bare if-tests in the
source (for example the name checks in geoguesser.py and geolocation.py). -/
def pyTruthy : JVal → Bool
  | .null => false
  | .jbool b => b
  | .jint n => n != 0
  | .jnum q => q != 0
  | .jstr s => s != ""
  | .jarr xs => !xs.isEmpty
  | .jobj kvs => !kvs.isEmpty

/-- Truthiness of the result of dict.get on a key: Python None is falsy. -/
def pyTruthyOpt : Option JVal → Bool
  | none => false
  | some v => pyTruthy v

/-- Model of Python dict.get: first binding of the key, if any. -/
def jlookup (kvs : List (String × JVal)) (key : String) : Option JVal :=
  match kvs with
  | [] => none
  | (k, v) :: rest => if k = key then some v else jlookup rest key

/-- Value of a list of decimal digit characters. -/
def digitsVal (cs : List Char) : ℕ :=
  cs.foldl (fun a c => 10 * a + (c.toNat - 48)) 0

/-- Whitespace trimming on a character list, the model of Python str.strip
as used implicitly by float() and by the spec's trimming rule. -/
def trimChars (cs : List Char) : List Char :=
  ((cs.dropWhile Char.isWhitespace).reverse.dropWhile Char.isWhitespace).reverse

/-- Model of Python float(s) on a string: optional surrounding whitespace,
optional sign, then digits with an optional fractional part.  The exotic parts
of the Python grammar (exponents, inf, nan, underscores) are irrelevant to the
claims and are not modelled; what matters is parsable versus unparsable. -/
def pyFloatOfString (s : String) : Option ℚ :=
  let cs := trimChars s.toList
  let signed : ℚ × List Char :=
    match cs with
    | '-' :: rest => (-1, rest)
    | '+' :: rest => (1, rest)
    | _ => (1, cs)
  let ip := signed.2.takeWhile Char.isDigit
  let rest := signed.2.dropWhile Char.isDigit
  match rest with
  | [] => if ip.isEmpty then none else some (signed.1 * (digitsVal ip : ℚ))
  | '.' :: frac =>
      if frac.all Char.isDigit && !(ip.isEmpty && frac.isEmpty) then
        some (signed.1 * ((digitsVal ip : ℚ) + (digitsVal frac : ℚ) / (10 : ℚ) ^ frac.length))
      else none
  | _ => none

/-- Model of Python float(v) on a JSON value: numbers pass through, booleans
coerce to 0 or 1, numeric strings parse, everything else raises (TypeError or
ValueError, collapsed into one error). -/
def pyFloat : JVal → Except Unit ℚ
  | .jint n => .ok (n : ℚ)
  | .jnum q => .ok q
  | .jbool b => .ok (if b then 1 else 0)
  | .jstr s =>
      match pyFloatOfString s with
      | some q => .ok q
      | none => .error ()
  | _ => .error ()

/-- Model of the coordinate coercion in both extractors:
x = d.get(key); d[key] = float(x) if x is not None else None.
A missing key or a JSON null becomes absent; any other value goes through
float, which can raise. -/
def pyFloatField (v : Option JVal) : Except Unit (Option ℚ) :=
  match v with
  | none => .ok none
  | some .null => .ok none
  | some j => (pyFloat j).map some

/-- Model of sorted(list(set(timestamps))) at src/youtube_utils.py line 63. -/
def dedupSort (ts : List Int) : List Int :=
  List.insertionSort (· ≤ ·) ts.dedup

/-- Model of isinstance(t, int) on a JSON value; Python bool is a subclass of
int, so booleans pass the check. -/
def isPyInt : JVal → Bool
  | .jint _ => true
  | .jbool _ => true
  | _ => false

/-- Integer value of a JSON value that passed isPyInt. -/
def pyIntVal : JVal → Int
  | .jint n => n
  | .jbool b => if b then 1 else 0
  | _ => 0

/-- Model of the validation at src/youtube_utils.py line 59: the parsed JSON
must be a list whose every element is an int, otherwise ValueError. -/
def validateIntList : JVal → Option (List Int)
  | .jarr xs => if xs.all isPyInt then some (xs.map pyIntVal) else none
  | _ => none

/-- Exceptions distinguished by the except clauses of the source. -/
inductive PyExc where
  | calledProcessError (msg : String)
  | exc (msg : String)

/-- Oracles for the external effects seen by
_get_location_timestamps_with_gemini_vision: whether genai.upload_file (and
the polling loop) completes without raising, whether the remote processing
ends in the terminal FAILED state, and the parsed JSON of the model response
(none when generate_content, .text or json.loads raises). -/
structure GeminiEnv where
  uploadOk : Bool
  processingFailed : Bool
  genaiResponse : Option JVal

/-- Result and side effects of one call to the Gemini step: the returned value
or escaping exception, whether a remote upload handle was created, and whether
genai.delete_file was called on it before returning. -/
structure GemOut where
  result : Except PyExc (List Int)
  uploaded : Bool
  handleDeleted : Bool

/-- Model of _get_location_timestamps_with_gemini_vision
(src/youtube_utils.py lines 9-70).  The FAILED check at lines 27-28 raises
before the try/finally at lines 31-70 is entered, so on that path
genai.delete_file is never reached; inside the try, any exception (transport,
json.loads, or the explicit ValueError of line 60) is caught at line 65 and
collapsed to an empty list, and the finally at lines 68-70 deletes the remote
handle. -/
def get_location_timestamps_with_gemini_vision (env : GeminiEnv) : GemOut :=
  if !env.uploadOk then
    { result := .error (.exc ("upload_file raised")), uploaded := false, handleDeleted := false }
  else if env.processingFailed then
    { result := .error (.exc ("Gemini video processing failed.")), uploaded := true,
      handleDeleted := false }
  else
    let attempt : Except PyExc (List Int) :=
      match env.genaiResponse with
      | none => .error (.exc ("generate_content or json.loads raised"))
      | some j =>
          match validateIntList j with
          | none => .error (.exc ("Gemini did not return a valid list of integer timestamps."))
          | some ts => .ok (dedupSort ts)
    match attempt with
    | .error _ => { result := .ok [], uploaded := true, handleDeleted := true }
    | .ok ts => { result := .ok ts, uploaded := true, handleDeleted := true }

/-- Path of the jpg written for the frame at a given offset
(src/youtube_utils.py lines 116-117, with output_dir = "captures" and
video_id = "temp_video_for_analysis"). -/
def framePath (ts : Int) : String :=
  "captures/temp_video_for_analysis_location_at_" ++ toString ts ++ "s.jpg"

/-- Accumulator form of the capture loop at src/youtube_utils.py lines
111-122: for each offset, cap.read either succeeds (decodeOk) and the frame
file path is appended, or fails and the offset is skipped. -/
def captureFramesGo (decodeOk : Int → Bool) (acc : List String) : List Int → List String
  | [] => acc
  | ts :: rest =>
      if decodeOk ts then captureFramesGo decodeOk (acc ++ [framePath ts]) rest
      else captureFramesGo decodeOk acc rest

/-- The capture loop started with the empty captured_image_paths list. -/
def captureFrames (decodeOk : Int → Bool) (offsets : List Int) : List String :=
  captureFramesGo decodeOk [] offsets

/-- Oracles for one run of analyze_and_capture_locations: whether yt-dlp
exits zero, the Gemini-step oracles, whether cv2.VideoCapture opens the file,
and which offsets decode successfully. -/
structure PipeEnv where
  downloadOk : Bool
  gem : GeminiEnv
  videoOpens : Bool
  decodeOk : Int → Bool

/-- Result and observable effects of one run of analyze_and_capture_locations:
the returned value or escaping exception, whether the downloaded mp4 still
exists after the finally block, which frame files still exist on return,
and which pipeline steps were reached. -/
structure PipeOut where
  result : Except PyExc (List String)
  videoFileRemains : Bool
  frameFilesRemaining : List String
  sceneLocatorCalled : Bool
  uploaded : Bool
  handleDeleted : Bool
  frameSamplerCalled : Bool

/-- Model of analyze_and_capture_locations (src/youtube_utils.py lines
72-135).  A yt-dlp failure raises CalledProcessError, caught at line 126 and
turned into an empty list; an exception escaping the Gemini step is caught at
line 129; an empty timestamp list returns early at lines 102-104; an
unopenable video raises at line 109 and is caught at line 129.  The finally at
lines 132-135 removes the downloaded mp4 on every path; no path removes the
captured frame files. -/
def analyze_and_capture_locations (env : PipeEnv) : PipeOut :=
  if !env.downloadOk then
    { result := .ok [], videoFileRemains := false, frameFilesRemaining := [],
      sceneLocatorCalled := false, uploaded := false, handleDeleted := false,
      frameSamplerCalled := false }
  else
    let g := get_location_timestamps_with_gemini_vision env.gem
    match g.result with
    | .error _ =>
        { result := .ok [], videoFileRemains := false, frameFilesRemaining := [],
          sceneLocatorCalled := true, uploaded := g.uploaded,
          handleDeleted := g.handleDeleted, frameSamplerCalled := false }
    | .ok ts =>
        if ts.isEmpty then
          { result := .ok [], videoFileRemains := false, frameFilesRemaining := [],
            sceneLocatorCalled := true, uploaded := g.uploaded,
            handleDeleted := g.handleDeleted, frameSamplerCalled := false }
        else if !env.videoOpens then
          { result := .ok [], videoFileRemains := false, frameFilesRemaining := [],
            sceneLocatorCalled := true, uploaded := g.uploaded,
            handleDeleted := g.handleDeleted, frameSamplerCalled := true }
        else
          { result := .ok (captureFrames env.decodeOk ts), videoFileRemains := false,
            frameFilesRemaining := captureFrames env.decodeOk ts,
            sceneLocatorCalled := true, uploaded := g.uploaded,
            handleDeleted := g.handleDeleted, frameSamplerCalled := true }

/-- A location record as appended by both extractors: the raw JSON name value
plus the two coerced coordinates. -/
structure LocRecord where
  name : JVal
  latitude : Option ℚ
  longitude : Option ℚ

/-- Model of the per-image body of get_geolocation_from_images
(src/geoguesser.py lines 86-96) applied to the parsed JSON of one response:
coordinates are coerced first (lines 88-91, float can raise), then the record
is appended only when location_data.get("name") is truthy (line 93).  A
non-dict value raises at the .get calls. -/
def processImage (j : JVal) : Except Unit (Option LocRecord) :=
  match j with
  | .jobj kvs =>
      match pyFloatField (jlookup kvs ("latitude")) with
      | .error e => .error e
      | .ok lat =>
          match pyFloatField (jlookup kvs ("longitude")) with
          | .error e => .error e
          | .ok lng =>
              if pyTruthyOpt (jlookup kvs ("name")) then
                .ok (some { name := (jlookup kvs ("name")).getD .null, latitude := lat,
                            longitude := lng })
              else
                .ok none
  | _ => .error ()

/-- Model of get_geolocation_from_images (src/geoguesser.py lines 28-106).
The oracle maps each image path to the parsed JSON of its response, or none
when anything up to json.loads raises or the response text is empty; every
per-image failure hits the except at line 98 and continues with the next
image. -/
def get_geolocation_from_images (resp : String → Option JVal) : List String → List LocRecord
  | [] => []
  | p :: rest =>
      match resp p with
      | none => get_geolocation_from_images resp rest
      | some j =>
          match processImage j with
          | .error _ => get_geolocation_from_images resp rest
          | .ok none => get_geolocation_from_images resp rest
          | .ok (some r) => r :: get_geolocation_from_images resp rest

/-- Model of the validation loop of get_geolocation_from_image_set
(src/geolocation.py lines 134-144): non-dict elements and falsy names are
skipped, but a float failure while coercing a coordinate raises out of the
loop (no per-element handler) to the except at line 149. -/
def processLocs : List JVal → Except Unit (List LocRecord)
  | [] => .ok []
  | loc :: rest =>
      match loc with
      | .jobj kvs =>
          if pyTruthyOpt (jlookup kvs ("name")) then
            match pyFloatField (jlookup kvs ("latitude")) with
            | .error e => .error e
            | .ok lat =>
                match pyFloatField (jlookup kvs ("longitude")) with
                | .error e => .error e
                | .ok lng =>
                    match processLocs rest with
                    | .error e => .error e
                    | .ok rs =>
                        .ok ({ name := (jlookup kvs ("name")).getD .null, latitude := lat,
                               longitude := lng } :: rs)
          else processLocs rest
      | _ => processLocs rest

/-- Model of get_geolocation_from_image_set (src/geolocation.py lines
24-151) applied to the parsed JSON of the single batched response (none when
the call raised or the response text was empty): a missing or non-list
"locations" key returns empty, and any exception inside the try, including a
coordinate coercion failure in the loop, returns empty via line 149. -/
def get_geolocation_from_image_set (resp : Option JVal) : List LocRecord :=
  match resp with
  | none => []
  | some raw =>
      match raw with
      | .jobj kvs =>
          match jlookup kvs ("locations") with
          | some (.jarr locs) =>
              match processLocs locs with
              | .ok recs => recs
              | .error _ => []
          | _ => []
      | _ => []

/-- Response of the HTTP endpoint: a 200 payload or an HTTPException. -/
inductive EndpointResult where
  | ok (locations : List LocRecord)
  | httpError (status : Nat) (detail : String)

/-- Oracles for one request to the endpoint: the pipeline oracles plus the
per-image extractor oracle. -/
structure MainEnv where
  pipe : PipeEnv
  imageResp : String → Option JVal

/-- Response and observable effects of one request. -/
structure MainOut where
  response : EndpointResult
  pipeOut : PipeOut
  extractorCalled : Bool

/-- Model of extract_ylocations (src/main.py lines 55-90): an empty capture
list raises HTTPException 404 at lines 70-73, an empty extraction result
raises HTTPException 404 at lines 82-85, otherwise the locations are returned;
an exception escaping the pipeline would surface as a 500. -/
def extract_ylocations (env : MainEnv) : MainOut :=
  let po := analyze_and_capture_locations env.pipe
  match po.result with
  | .error _ =>
      { response := .httpError 500 ("Internal Server Error"), pipeOut := po,
        extractorCalled := false }
  | .ok paths =>
      if paths.isEmpty then
        { response := .httpError 404 ("No locations could be identified and captured from the video."),
          pipeOut := po, extractorCalled := false }
      else
        let locations := get_geolocation_from_images env.imageResp paths
        if locations.isEmpty then
          { response := .httpError 404 ("Location images were captured, but could not be identified."),
            pipeOut := po, extractorCalled := true }
        else
          { response := .ok locations, pipeOut := po, extractorCalled := true }

/-- Gemini environment where the upload and processing succeed and the model
response parses to the given JSON array. -/
def gemOkList (xs : List JVal) : GeminiEnv :=
  { uploadOk := true, processingFailed := false, genaiResponse := some (.jarr xs) }

/-- Run where everything succeeds and the single timestamp 45 decodes. -/
def envHappy : PipeEnv :=
  { downloadOk := true, gem := gemOkList [.jint 45], videoOpens := true,
    decodeOk := fun _ => true }

/-- Run where yt-dlp exits non-zero. -/
def envDownloadFail : PipeEnv :=
  { downloadOk := false, gem := gemOkList [], videoOpens := true,
    decodeOk := fun _ => true }

/-- Run where the download succeeds and Gemini finds no timestamps. -/
def envNoTimestamps : PipeEnv :=
  { downloadOk := true, gem := gemOkList [], videoOpens := true,
    decodeOk := fun _ => true }

/-- Run where remote processing ends in the terminal FAILED state. -/
def envGemFails : PipeEnv :=
  { downloadOk := true,
    gem := { uploadOk := true, processingFailed := true, genaiResponse := none },
    videoOpens := true, decodeOk := fun _ => true }

/-- Run where the downloaded video cannot be opened by cv2. -/
def envNoOpen : PipeEnv :=
  { downloadOk := true, gem := gemOkList [.jint 45], videoOpens := false,
    decodeOk := fun _ => true }

/-- Extractor oracle where every OpenAI call fails. -/
def noResp : String → Option JVal := fun _ => none

/-- The capture loop is the filter of the offsets by decode success, rendered
as frame paths, after any accumulator. -/
theorem captureFramesGo_eq (d : Int → Bool) (l : List Int) :
    ∀ acc : List String, captureFramesGo d acc l = acc ++ (l.filter d).map framePath := by
  induction l with
  | nil => intro acc; simp [captureFramesGo]
  | cons ts rest ih =>
      intro acc
      by_cases h : d ts
      · simp [captureFramesGo, h, ih]
      · simp [captureFramesGo, h, ih]

/-- The capture loop from the empty accumulator. -/
theorem captureFrames_eq (d : Int → Bool) (l : List Int) :
    captureFrames d l = (l.filter d).map framePath := by
  simpa using captureFramesGo_eq d l []

/-- A JSON array of integers passes the line-59 validation unchanged. -/
theorem validateIntList_map_jint (ts : List Int) :
    validateIntList (.jarr (ts.map .jint)) = some ts := by
  have hall : ∀ l : List Int, (l.map JVal.jint).all isPyInt = true := by
    intro l
    induction l with
    | nil => rfl
    | cons a t ih => simp [isPyInt, ih]
  have hmap : ∀ l : List Int, (l.map JVal.jint).map pyIntVal = l := by
    intro l
    induction l with
    | nil => rfl
    | cons a t ih => simp only [List.map_cons, pyIntVal]; rw [ih]
  simp [validateIntList, hall ts, hmap ts]

/-- dedupSort output is weakly sorted. -/
theorem dedupSort_sorted_le (ts : List Int) : (dedupSort ts).Sorted (· ≤ ·) :=
  List.sorted_insertionSort _ _

/-- dedupSort output has no duplicates. -/
theorem dedupSort_nodup (ts : List Int) : (dedupSort ts).Nodup :=
  (List.perm_insertionSort _ _).nodup_iff.mpr (List.nodup_dedup ts)

/-- dedupSort output is strictly ascending. -/
theorem dedupSort_sorted_lt (ts : List Int) : (dedupSort ts).Sorted (· < ·) :=
  (dedupSort_sorted_le ts).lt_of_le (dedupSort_nodup ts)

/-- A truthy looked-up name stays truthy after the getD used to read it back. -/
theorem truthy_getD {kvs : List (String × JVal)} {key : String}
    (h : pyTruthyOpt (jlookup kvs key) = true) :
    pyTruthy ((jlookup kvs key).getD .null) = true := by
  cases hl : jlookup kvs key with
  | none => rw [hl] at h; simp [pyTruthyOpt] at h
  | some v => rw [hl] at h; simpa [pyTruthyOpt] using h

/-- Any record accepted by the per-image body has a truthy name. -/
theorem processImage_name_truthy {j : JVal} {r : LocRecord}
    (h : processImage j = .ok (some r)) : pyTruthy r.name = true := by
  cases j with
  | jobj kvs =>
      rw [processImage] at h
      cases hlat : pyFloatField (jlookup kvs ("latitude")) with
      | error e => rw [hlat] at h; cases h
      | ok lat =>
          rw [hlat] at h
          cases hlng : pyFloatField (jlookup kvs ("longitude")) with
          | error e => rw [hlng] at h; cases h
          | ok lng =>
              rw [hlng] at h
              cases hn : pyTruthyOpt (jlookup kvs ("name")) with
              | false => simp [hn] at h
              | true =>
                  simp only [hn, if_true] at h
                  injection h with h2
                  injection h2 with h3
                  subst h3
                  exact truthy_getD hn
  | null => simp [processImage] at h
  | jbool b => simp [processImage] at h
  | jint n => simp [processImage] at h
  | jnum q => simp [processImage] at h
  | jstr s => simp [processImage] at h
  | jarr xs => simp [processImage] at h

/-- Any record accepted by the batched validation loop has a truthy name. -/
theorem processLocs_name_truthy {locs : List JVal} :
    ∀ {recs : List LocRecord} {r : LocRecord},
      processLocs locs = .ok recs → r ∈ recs → pyTruthy r.name = true := by
  induction locs with
  | nil =>
      intro recs r h hr
      rw [processLocs] at h
      injection h with h2
      subst h2
      cases hr
  | cons loc rest ih =>
      intro recs r h hr
      cases loc with
      | jobj kvs =>
          rw [processLocs] at h
          cases hn : pyTruthyOpt (jlookup kvs ("name")) with
          | false => simp only [hn, Bool.false_eq_true, if_false] at h; exact ih h hr
          | true =>
              simp only [hn, if_true] at h
              cases hlat : pyFloatField (jlookup kvs ("latitude")) with
              | error e => rw [hlat] at h; cases h
              | ok lat =>
                  rw [hlat] at h
                  cases hlng : pyFloatField (jlookup kvs ("longitude")) with
                  | error e => rw [hlng] at h; cases h
                  | ok lng =>
                      rw [hlng] at h
                      cases hrest : processLocs rest with
                      | error e => rw [hrest] at h; cases h
                      | ok rs =>
                          rw [hrest] at h
                          injection h with h2
                          subst h2
                          cases hr with
                          | head => exact truthy_getD hn
                          | tail _ hmem => exact ih hrest hmem
      | null => simp only [processLocs] at h; exact ih h hr
      | jbool b => simp only [processLocs] at h; exact ih h hr
      | jint n => simp only [processLocs] at h; exact ih h hr
      | jnum q => simp only [processLocs] at h; exact ih h hr
      | jstr s => simp only [processLocs] at h; exact ih h hr
      | jarr xs => simp only [processLocs] at h; exact ih h hr

/-- Claim C1, counterexample: on a fully successful invocation (download ok,
Gemini returns timestamp 45, video opens, the frame decodes) the captured
frame file is still present in scoped storage when
analyze_and_capture_locations returns, so it is false that all captured frame
image files are deleted on every exit path. -/
theorem frame_files_survive_successful_run :
    (analyze_and_capture_locations envHappy).frameFilesRemaining = [framePath 45] ∧
    [framePath 45] ≠ ([] : List String) :=
  ⟨rfl, by simp⟩

/-- Claim C1, amended: on every exit path the downloaded media artifact file
is deleted before the invocation returns, but the captured frame image files
are never deleted — exactly the returned frame paths remain in scoped
storage. -/
theorem video_deleted_frames_retained (env : PipeEnv) :
    (analyze_and_capture_locations env).videoFileRemains = false ∧
    ∃ ps, (analyze_and_capture_locations env).result = Except.ok ps ∧
      (analyze_and_capture_locations env).frameFilesRemaining = ps := by
  cases hd : env.downloadOk with
  | false =>
      exact ⟨by simp [analyze_and_capture_locations, hd], [],
        by simp [analyze_and_capture_locations, hd],
        by simp [analyze_and_capture_locations, hd]⟩
  | true =>
      cases hr : (get_location_timestamps_with_gemini_vision env.gem).result with
      | error e =>
          exact ⟨by simp [analyze_and_capture_locations, hd, hr], [],
            by simp [analyze_and_capture_locations, hd, hr],
            by simp [analyze_and_capture_locations, hd, hr]⟩
      | ok ts =>
          cases hts : ts.isEmpty with
          | true =>
              exact ⟨by simp [analyze_and_capture_locations, hd, hr, hts], [],
                by simp [analyze_and_capture_locations, hd, hr, hts],
                by simp [analyze_and_capture_locations, hd, hr, hts]⟩
          | false =>
              cases hv : env.videoOpens with
              | false =>
                  exact ⟨by simp [analyze_and_capture_locations, hd, hr, hts, hv], [],
                    by simp [analyze_and_capture_locations, hd, hr, hts, hv],
                    by simp [analyze_and_capture_locations, hd, hr, hts, hv]⟩
              | true =>
                  exact ⟨by simp [analyze_and_capture_locations, hd, hr, hts, hv],
                    captureFrames env.decodeOk ts,
                    by simp [analyze_and_capture_locations, hd, hr, hts, hv],
                    by simp [analyze_and_capture_locations, hd, hr, hts, hv]⟩

/-- Claim C2: whenever the model response parses to a JSON array of integers,
the offset list the Gemini step returns (and that the capture loop receives)
is sorted(list(set(...))) of it, which is strictly ascending with no
duplicates; in particular [45, 182, 45, 350] yields [45, 182, 350]. -/
theorem scene_locator_offsets_strictly_ascending (genv : GeminiEnv) (ts : List Int)
    (hu : genv.uploadOk = true) (hp : genv.processingFailed = false)
    (hr : genv.genaiResponse = some (.jarr (ts.map .jint))) :
    (get_location_timestamps_with_gemini_vision genv).result = .ok (dedupSort ts) ∧
    (dedupSort ts).Sorted (· < ·) ∧ (dedupSort ts).Nodup ∧
    dedupSort [45, 182, 45, 350] = [45, 182, 350] := by
  refine ⟨?_, dedupSort_sorted_lt ts, dedupSort_nodup ts, by decide⟩
  simp [get_location_timestamps_with_gemini_vision, hu, hp, hr, validateIntList_map_jint]

/-- Witness for C2 at the response [45, 182, 45, 350]. -/
theorem scene_locator_offsets_strictly_ascending_witness :
    (gemOkList ([45, 182, 45, 350].map .jint)).uploadOk = true ∧
    (gemOkList ([45, 182, 45, 350].map .jint)).processingFailed = false ∧
    (gemOkList ([45, 182, 45, 350].map .jint)).genaiResponse
      = some (.jarr ([45, 182, 45, 350].map .jint)) ∧
    (get_location_timestamps_with_gemini_vision
        (gemOkList ([45, 182, 45, 350].map .jint))).result = .ok (dedupSort [45, 182, 45, 350]) :=
  ⟨rfl, rfl, rfl,
    (scene_locator_offsets_strictly_ascending (gemOkList ([45, 182, 45, 350].map .jint))
      [45, 182, 45, 350] rfl rfl rfl).1⟩

/-- Claim C3: the dedup-and-sort normalization of the timestamp list is
idempotent. -/
theorem dedup_sort_idempotent (ts : List Int) :
    dedupSort (dedupSort ts) = dedupSort ts := by
  have hn : (dedupSort ts).Nodup := dedupSort_nodup ts
  have hs : (dedupSort ts).Sorted (· ≤ ·) := dedupSort_sorted_le ts
  show List.insertionSort (· ≤ ·) (dedupSort ts).dedup = dedupSort ts
  rw [List.Nodup.dedup hn, List.Sorted.insertionSort_eq hs]

/-- Claim C4: the capture loop produces exactly the frames of the offsets
that decode, in input order (a sublist of the offsets, still strictly
ascending when the input is); a decode failure only drops its own offset.
With decoding failing only at 350, [45, 182, 350] yields the frames for
[45, 182]. -/
theorem frame_sampler_skips_failed_offsets (d : Int → Bool) (offsets : List Int)
    (hs : offsets.Sorted (· < ·)) :
    captureFrames d offsets = (offsets.filter d).map framePath ∧
    (offsets.filter d).Sublist offsets ∧
    (offsets.filter d).Sorted (· < ·) ∧
    captureFrames (fun t => t != 350) [45, 182, 350] = [framePath 45, framePath 182] :=
  ⟨captureFrames_eq d offsets, List.filter_sublist offsets, hs.filter d, rfl⟩

/-- Witness for C4 at offsets [45, 182, 350] with decode failing at 350. -/
theorem frame_sampler_skips_failed_offsets_witness :
    ([45, 182, 350] : List Int).Sorted (· < ·) ∧
    captureFrames (fun t => t != 350) [45, 182, 350] =
      (([45, 182, 350] : List Int).filter (fun t => t != 350)).map framePath :=
  ⟨by decide,
    (frame_sampler_skips_failed_offsets (fun t => t != 350) [45, 182, 350] (by decide)).1⟩

/-- Claim C5, counterexample: a record whose name is the whitespace-only
string " " is accepted by the batched extractor (Python truthiness does not
trim), although its name is empty after trimming — so records with
whitespace-only names are not discarded. -/
theorem whitespace_name_accepted :
    get_geolocation_from_image_set
        (some (.jobj [(("locations"), .jarr [.jobj [(("name"), .jstr (" "))]])])) =
      [{ name := .jstr (" "), latitude := none, longitude := none }] ∧
    trimChars ((" ").toList) = [] :=
  ⟨rfl, rfl⟩

/-- Claim C5, amended: in both extraction modes a candidate record is
accepted exactly when its name field is Python-truthy — present and non-empty
for strings, without any whitespace trimming — so every returned record has a
truthy (possibly whitespace-only) name. -/
theorem returned_names_truthy :
    (∀ (resp : String → Option JVal) (paths : List String) (r : LocRecord),
        r ∈ get_geolocation_from_images resp paths → pyTruthy r.name = true) ∧
    (∀ (resp : Option JVal) (r : LocRecord),
        r ∈ get_geolocation_from_image_set resp → pyTruthy r.name = true) := by
  constructor
  · intro resp paths
    induction paths with
    | nil => intro r hr; cases hr
    | cons p rest ih =>
        intro r hr
        simp only [get_geolocation_from_images] at hr
        cases hresp : resp p with
        | none => simp only [hresp] at hr; exact ih r hr
        | some j =>
            simp only [hresp] at hr
            cases hpi : processImage j with
            | error e => simp only [hpi] at hr; exact ih r hr
            | ok o =>
                cases o with
                | none => simp only [hpi] at hr; exact ih r hr
                | some rec =>
                    simp only [hpi] at hr
                    cases hr with
                    | head => exact processImage_name_truthy hpi
                    | tail _ hmem => exact ih r hmem
  · intro resp r hr
    cases resp with
    | none => simp [get_geolocation_from_image_set] at hr
    | some raw =>
        cases raw with
        | jobj kvs =>
            cases hlk : jlookup kvs ("locations") with
            | none => simp [get_geolocation_from_image_set, hlk] at hr
            | some v =>
                cases v with
                | jarr locs =>
                    cases hpl : processLocs locs with
                    | error e => simp [get_geolocation_from_image_set, hlk, hpl] at hr
                    | ok recs =>
                        simp only [get_geolocation_from_image_set, hlk, hpl] at hr
                        exact processLocs_name_truthy hpl hr
                | null => simp [get_geolocation_from_image_set, hlk] at hr
                | jbool b => simp [get_geolocation_from_image_set, hlk] at hr
                | jint n => simp [get_geolocation_from_image_set, hlk] at hr
                | jnum q => simp [get_geolocation_from_image_set, hlk] at hr
                | jstr s => simp [get_geolocation_from_image_set, hlk] at hr
                | jobj kvs2 => simp [get_geolocation_from_image_set, hlk] at hr
        | null => simp [get_geolocation_from_image_set] at hr
        | jbool b => simp [get_geolocation_from_image_set] at hr
        | jint n => simp [get_geolocation_from_image_set] at hr
        | jnum q => simp [get_geolocation_from_image_set] at hr
        | jstr s => simp [get_geolocation_from_image_set] at hr
        | jarr xs => simp [get_geolocation_from_image_set] at hr

/-- Witness for the C5 amended theorem at a one-image run whose response has
the truthy name "Cafe A". -/
theorem returned_names_truthy_witness :
    pyTruthy (JVal.jstr ("Cafe A")) = true :=
  returned_names_truthy.1 (fun _ => some (.jobj [(("name"), .jstr ("Cafe A"))])) [("p")]
    { name := .jstr ("Cafe A"), latitude := none, longitude := none }
    (List.mem_singleton_self _)

/-- A location object whose latitude is the unparsable string "abc". -/
def badLatLoc : JVal :=
  .jobj [(("name"), .jstr ("X")), (("latitude"), .jstr ("abc"))]

/-- Per-image oracle that always answers with badLatLoc. -/
def badLatResp : String → Option JVal := fun _ => some badLatLoc

/-- Claim C6, counterexample: in the batched extractor a record with a valid
name "X" but unparsable latitude "abc" does not get latitude set to absent —
float raises, the exception aborts the whole validation loop, and even the
preceding fully valid "Cafe A" record is dropped: the call returns []. -/
theorem unparsable_latitude_aborts_batched_call :
    get_geolocation_from_image_set (some (.jobj [(("locations"), .jarr
      [.jobj [(("name"), .jstr ("Cafe A")), (("latitude"), .jnum (37.5 : ℚ)),
              (("longitude"), .jnum (127.0 : ℚ))],
       badLatLoc])])) = [] ∧
    pyFloatOfString ("abc") = none :=
  ⟨rfl, rfl⟩

/-- Claim C6, amended: latitude and longitude are independently coerced and a
null or missing raw value becomes absent without discarding the record; but a
present value unparsable as a number makes float raise, which in per-image
mode discards that record (the remaining frames are still processed) and in
batched mode aborts the whole extraction call to an empty result. -/
theorem coercion_null_missing_absent :
    (∀ v : Option JVal, (v = none ∨ v = some .null) → pyFloatField v = .ok none) ∧
    (∀ kvs : List (String × JVal),
        pyTruthyOpt (jlookup kvs ("name")) = true →
        pyFloatField (jlookup kvs ("latitude")) = .ok none →
        pyFloatField (jlookup kvs ("longitude")) = .ok none →
        processImage (.jobj kvs) =
          .ok (some { name := (jlookup kvs ("name")).getD .null, latitude := none,
                      longitude := none })) ∧
    (∀ (resp : String → Option JVal) (p : String) (rest : List String)
        (kvs : List (String × JVal)),
        resp p = some (.jobj kvs) →
        pyFloatField (jlookup kvs ("latitude")) = .error () →
        get_geolocation_from_images resp (p :: rest) = get_geolocation_from_images resp rest) ∧
    (∀ (kvs : List (String × JVal)) (locs : List JVal),
        jlookup kvs ("locations") = some (.jarr locs) →
        processLocs locs = .error () →
        get_geolocation_from_image_set (some (.jobj kvs)) = []) := by
  refine ⟨?_, ?_, ?_, ?_⟩
  · rintro v (rfl | rfl) <;> rfl
  · intro kvs hn hlat hlng
    simp [processImage, hlat, hlng, hn]
  · intro resp p rest kvs hresp hlat
    simp only [get_geolocation_from_images, hresp, processImage, hlat]
  · intro kvs locs hlk hpl
    simp only [get_geolocation_from_image_set, hlk, hpl]

/-- Witness for the C6 amended theorem: a missing raw value coerces to
absent, a valid-name record with both coordinates missing is kept with absent
coordinates, the per-image loop skips the bad-latitude record and continues,
and the batched call returns empty on the bad-latitude record. -/
theorem coercion_null_missing_absent_witness :
    pyFloatField none = .ok none ∧
    processImage (.jobj [(("name"), .jstr ("A"))]) =
      .ok (some { name := (jlookup [(("name"), .jstr ("A"))] ("name")).getD .null,
                  latitude := none, longitude := none }) ∧
    get_geolocation_from_images badLatResp [("p")] =
      get_geolocation_from_images badLatResp [] ∧
    get_geolocation_from_image_set (some (.jobj [(("locations"), .jarr [badLatLoc])])) = [] :=
  ⟨coercion_null_missing_absent.1 none (Or.inl rfl),
   coercion_null_missing_absent.2.1 [(("name"), .jstr ("A"))] rfl rfl rfl,
   coercion_null_missing_absent.2.2.1 badLatResp ("p") []
     [(("name"), .jstr ("X")), (("latitude"), .jstr ("abc"))] rfl rfl,
   coercion_null_missing_absent.2.2.2 [(("locations"), .jarr [badLatLoc])] [badLatLoc] rfl rfl⟩

/-- Claim C7: when the remote service reports the terminal FAILED processing
state, the upload handle was created but genai.delete_file is never called —
the raise at src/youtube_utils.py line 28 happens before the try/finally, so
the remote handle leaks on exactly the path the claim says is covered. -/
theorem failed_processing_leaks_remote_handle :
    (get_location_timestamps_with_gemini_vision
        { uploadOk := true, processingFailed := true, genaiResponse := none }).uploaded = true ∧
    (get_location_timestamps_with_gemini_vision
        { uploadOk := true, processingFailed := true, genaiResponse := none }).handleDeleted
      = false :=
  ⟨rfl, rfl⟩

/-- Claim C8, counterexample: a failed download produces exactly the same
HTTP outcome (404, "No locations could be identified and captured from the
video.") as a successful download with no timestamps found — the pipeline
does not report a download failure distinctly. -/
theorem download_failure_reported_as_not_found :
    (extract_ylocations { pipe := envDownloadFail, imageResp := noResp }).response =
      .httpError 404 ("No locations could be identified and captured from the video.") ∧
    (extract_ylocations { pipe := envDownloadFail, imageResp := noResp }).response =
      (extract_ylocations { pipe := envNoTimestamps, imageResp := noResp }).response :=
  ⟨rfl, rfl⟩

/-- Claim C8, amended: when the download fails the scene-locating,
frame-capture and location-extraction steps are indeed never invoked, but the
failure is collapsed to an empty capture list and reported as the same 404
not-found outcome as "no locations found", not as a distinct DownloadFailure. -/
theorem download_failure_collapses_to_404 (env : MainEnv)
    (h : env.pipe.downloadOk = false) :
    (extract_ylocations env).response =
      .httpError 404 ("No locations could be identified and captured from the video.") ∧
    (extract_ylocations env).pipeOut.sceneLocatorCalled = false ∧
    (extract_ylocations env).pipeOut.uploaded = false ∧
    (extract_ylocations env).pipeOut.frameSamplerCalled = false ∧
    (extract_ylocations env).extractorCalled = false := by
  refine ⟨?_, ?_, ?_, ?_, ?_⟩ <;>
    simp [extract_ylocations, analyze_and_capture_locations, h]

/-- Witness for the C8 amended theorem at a concrete failed download. -/
theorem download_failure_collapses_to_404_witness :
    envDownloadFail.downloadOk = false ∧
    (extract_ylocations { pipe := envDownloadFail, imageResp := noResp }).response =
      .httpError 404 ("No locations could be identified and captured from the video.") :=
  ⟨rfl, (download_failure_collapses_to_404 { pipe := envDownloadFail, imageResp := noResp }
    rfl).1⟩

/-- Claim C9: when the download succeeds and the Gemini step yields an empty
offset list — by returning it, or because any failure inside it degraded to
empty, or because its escaping exception is caught by the orchestrator — the
pipeline short-circuits to the 404 not-found outcome, never a server error,
and the extractor is not invoked. -/
theorem empty_offsets_short_circuit_404 (env : MainEnv)
    (hd : env.pipe.downloadOk = true)
    (hg : ∀ ts, (get_location_timestamps_with_gemini_vision env.pipe.gem).result = .ok ts →
      ts = []) :
    (extract_ylocations env).response =
      .httpError 404 ("No locations could be identified and captured from the video.") ∧
    (extract_ylocations env).extractorCalled = false := by
  cases hr : (get_location_timestamps_with_gemini_vision env.pipe.gem).result with
  | error e =>
      constructor <;> simp [extract_ylocations, analyze_and_capture_locations, hd, hr]
  | ok ts =>
      have hts : ts = [] := hg ts hr
      subst hts
      constructor <;> simp [extract_ylocations, analyze_and_capture_locations, hd, hr]

/-- Witness for C9 at a run where Gemini finds no timestamps. -/
theorem empty_offsets_short_circuit_404_witness :
    envNoTimestamps.downloadOk = true ∧
    (extract_ylocations { pipe := envNoTimestamps, imageResp := noResp }).response =
      .httpError 404 ("No locations could be identified and captured from the video.") := by
  refine ⟨rfl, (empty_offsets_short_circuit_404 { pipe := envNoTimestamps, imageResp := noResp }
    rfl ?_).1⟩
  intro ts h
  have h2 : (Except.ok [] : Except PyExc (List Int)) = Except.ok ts := h
  injection h2 with h3
  exact h3.symm

/-- Claim C10: analyze_and_capture_locations is total at its interface — for
every oracle environment it returns a list of file paths and never lets an
exception escape; a download failure, a failure escaping the Gemini step, and
an unopenable video each collapse to the empty list. -/
theorem analyze_total_never_raises (env : PipeEnv) :
    (∃ ps : List String, (analyze_and_capture_locations env).result = .ok ps) ∧
    (env.downloadOk = false → (analyze_and_capture_locations env).result = .ok []) ∧
    ((∃ e, (get_location_timestamps_with_gemini_vision env.gem).result = .error e) →
        env.downloadOk = true → (analyze_and_capture_locations env).result = .ok []) ∧
    (env.videoOpens = false → env.downloadOk = true →
        (analyze_and_capture_locations env).result = .ok []) := by
  refine ⟨?_, ?_, ?_, ?_⟩
  · cases hd : env.downloadOk with
    | false => exact ⟨[], by simp [analyze_and_capture_locations, hd]⟩
    | true =>
        cases hr : (get_location_timestamps_with_gemini_vision env.gem).result with
        | error e => exact ⟨[], by simp [analyze_and_capture_locations, hd, hr]⟩
        | ok ts =>
            cases hts : ts.isEmpty with
            | true => exact ⟨[], by simp [analyze_and_capture_locations, hd, hr, hts]⟩
            | false =>
                cases hv : env.videoOpens with
                | false => exact ⟨[], by simp [analyze_and_capture_locations, hd, hr, hts, hv]⟩
                | true => exact ⟨captureFrames env.decodeOk ts,
                    by simp [analyze_and_capture_locations, hd, hr, hts, hv]⟩
  · intro hd; simp [analyze_and_capture_locations, hd]
  · rintro ⟨e, he⟩ hd; simp [analyze_and_capture_locations, hd, he]
  · intro hv hd
    cases hr : (get_location_timestamps_with_gemini_vision env.gem).result with
    | error e => simp [analyze_and_capture_locations, hd, hr]
    | ok ts =>
        cases hts : ts.isEmpty with
        | true => simp [analyze_and_capture_locations, hd, hr, hts]
        | false => simp [analyze_and_capture_locations, hd, hr, hts, hv]

/-- Witness for C10 at a failed download, a terminal FAILED Gemini run, and
an unopenable video. -/
theorem analyze_total_never_raises_witness :
    (analyze_and_capture_locations envDownloadFail).result = .ok [] ∧
    (analyze_and_capture_locations envGemFails).result = .ok [] ∧
    (analyze_and_capture_locations envNoOpen).result = .ok [] :=
  ⟨(analyze_total_never_raises envDownloadFail).2.1 rfl,
   (analyze_total_never_raises envGemFails).2.2.1
     ⟨.exc ("Gemini video processing failed."), rfl⟩ rfl,
   (analyze_total_never_raises envNoOpen).2.2.2 rfl rfl⟩
